import Mathlib

/-!
Shallow embedding of the SPR-to-ADLP aggregation pipeline
(src/script_spr_to_adlp_funct_8k/SPR_to_ADLP_Funct_8K.py), together with
theorems checking the natural-language specification against it.

Conventions of the embedding:
* pandas DataFrames become Lean structures / lists of row structures;
* floating point numbers become rationals;
* a NaN cell becomes `none` of an `Option` type;
* Python exceptions become `Except String` carrying the raised message;
* the process working directory (mutated by os.chdir) is threaded as
  explicit state.
-/

namespace SPR

/-! ## Basic helpers -/

/-- Round a rational to the nearest integer, ties to even
(the rounding convention of Python's built-in round). -/
def roundHalfEven (q : ℚ) : ℤ :=
  let f : ℤ := ⌊q⌋
  let frac : ℚ := q - (f : ℚ)
  if frac < 1/2 then f
  else if 1/2 < frac then f + 1
  else if f % 2 = 0 then f else f + 1

/-- Python round(x, 2): round to two decimal places, ties to even. -/
def round2 (q : ℚ) : ℚ := (roundHalfEven (q * 100) : ℚ) / 100

/-- Embedding of the comprehension
[sum(blanks_list[i: i + 2]) / 2 for i in range(0, len(blanks_list), 2)]
from calc_max_theory_disp: average the entries of the list two at a time;
a trailing unpaired entry is summed alone and still divided by 2. -/
def avgPairs : List ℚ → List ℚ
  | [] => []
  | [x] => [x / 2]
  | x :: y :: rest => (x + y) / 2 :: avgPairs rest

/-- True when the first list is an initial segment of the second. -/
def hasPre : List Char → List Char → Bool
  | [], _ => true
  | _ :: _, [] => false
  | p :: ps, c :: cs => p == c && hasPre ps cs

/-- True when the first list occurs contiguously inside the second. -/
def hasSub (pat : List Char) : List Char → Bool
  | [] => pat.isEmpty
  | c :: cs => hasPre pat (c :: cs) || hasSub pat (cs)

/-- Substring containment test on strings. -/
def strContains (s pat : String) : Bool := hasSub pat.toList s.toList

/-- Split a character list at every occurrence of the separator, keeping
empty pieces (the behaviour of Python str.split with an explicit one
character separator). -/
def splitChar (sep : Char) : List Char → List (List Char)
  | [] => [[]]
  | c :: cs =>
    if c = sep then [] :: splitChar sep cs
    else
      match splitChar sep cs with
      | [] => [[c]]
      | g :: gs => (c :: g) :: gs

/-- Python str.split(sep) for a one-character separator. -/
def splitStr (s : String) (sep : Char) : List String :=
  (splitChar sep s.toList).map List.asString

/-- Parse a run of decimal digits with an accumulator. -/
def parseNatAux : List Char → Nat → Option Nat
  | [], acc => some acc
  | c :: cs, acc =>
    if c.isDigit then parseNatAux cs (acc * 10 + (c.toNat - 48)) else none

/-- Python int(s) on a non-negative decimal string; none raises ValueError
in the source. -/
def parseNatList : List Char → Option Nat
  | [] => none
  | cs => parseNatAux cs 0

/-- Python int(s) with an optional leading minus sign. -/
def strToInt (s : String) : Option Int :=
  match s.toList with
  | '-' :: cs => (parseNatList cs).map (fun n => -(n : Int))
  | cs => (parseNatList cs).map (fun n => (n : Int))

/-! ## Report point table rows

One row of the sheet 'Report point table' of the instrument export, after
the column trim performed by both calc_max_theory_disp and
spr_displacement_top_conc.  Column names in the source file:
Cycle, Channel, Flow cell, Sensorgram type, Name, Step purpose,
Relative response (RU), A-B-A 1 Concentration (µM), A-B-A 1 Flanking solution.
-/
structure RptRow where
  cycle : Int
  channel : Int
  flowCell : String
  sensoType : String
  name : String
  stepPurpose : String
  relResp : ℚ
  concUM : ℚ
  flankSol : String
  deriving Repr, DecidableEq

/-- The row filter applied per flow channel inside calc_max_theory_disp:
Channel == fc, Sensorgram type == 'Corrected', Name == 'A-B-A binding late_1',
then A-B-A 1 Concentration (µM) == 0; the responses of the surviving rows,
in table order. -/
def blanksFor (rows : List RptRow) (fc : Int) : List ℚ :=
  ((rows.filter (fun r =>
      decide (r.channel = fc ∧ r.sensoType = "Corrected" ∧
        r.name = "A-B-A binding late_1"))).filter
    (fun r => decide (r.concUM = 0))).map (fun r => r.relResp)

/-- Embedding of calc_max_theory_disp (the file read already performed:
`rows` is the content of the report point sheet).  For each flow channel of
fc_used_arr, in order, take the blank responses, average them pairwise,
concatenate, and finally negate every entry. -/
def calc_max_theory_disp (rows : List RptRow) (fc_used_arr : List Int) :
    List ℚ :=
  let ls_max_theory :=
    (fc_used_arr.map (fun fc => avgPairs (blanksFor rows fc))).flatten
  ls_max_theory.map (fun i => i * -1)

/-- Per-channel description following the spec wording of the Metric
Calculator: select the channel's Corrected, late-binding-step,
zero-concentration blank rows, average each consecutive pair, then negate;
channels are processed in caller order and the results concatenated. -/
def maxTheoryDispSpec (rows : List RptRow) (fc_used_arr : List Int) :
    List ℚ :=
  (fc_used_arr.map (fun fc =>
    (avgPairs (blanksFor rows fc)).map (fun v => -v))).flatten

/-- A row of the concrete blank-injection example of the spec:
channel 1, Corrected, late binding step, zero concentration. -/
def blankRow (v : ℚ) : RptRow :=
  { cycle := 1, channel := 1, flowCell := "1", sensoType := "Corrected",
    name := "A-B-A binding late_1", stepPurpose := "Analysis",
    relResp := v, concUM := 0, flankSol := "BRD-0001_a" }

/-- The four-blank example of the spec: values -10, -12, -8, -6 on one
channel. -/
def fourBlankRows : List RptRow :=
  [blankRow (-10), blankRow (-12), blankRow (-8), blankRow (-6)]

/-- A three-blank (odd-length) input used to exercise the unpaired case. -/
def threeBlankRows : List RptRow :=
  [blankRow (-10), blankRow (-12), blankRow (-8)]

/-! ## Sorting

pandas sort_values is used with its default algorithm, which does not
promise any particular relative order of rows with equal keys; the
embedding uses an insertion sort (ascending, ties keep the earlier row
first). -/

/-- Insert an element into a sorted list, before the first element it
compares le to. -/
def insertSorted (le : α → α → Bool) (a : α) : List α → List α
  | [] => [a]
  | b :: l => if le a b then a :: b :: l else b :: insertSorted le a l

/-- Insertion sort with respect to a boolean comparison. -/
def sortBy (le : α → α → Bool) : List α → List α
  | [] => []
  | a :: l => insertSorted le a (sortBy le l)

/-! ## spr_displacement_top_conc

Embedding of spr_displacement_top_conc.  The report point file is modelled
as an Option: none stands for a file pandas cannot read (the except branch
around pd.read_excel).  The compound set frame is passed by reference in
Python and mutated in place; the embedding returns the post-call frame next
to the result series.
-/

/-- One row of the compound set table (columns Broad ID, Test [Cpd] uM,
MW).  BRD_MERGE models the derived column the function adds to the frame:
none before the call. -/
structure CmpdRow where
  broadID : String
  testConcUM : ℚ
  mw : ℚ
  brdMerge : Option String := none
  deriving Repr, DecidableEq

/-- Python 'Broad ID'[9:13]: four characters starting at offset 9. -/
def brdCore (s : String) : String := (((s.toList).drop 9).take 4).asString

/-- BRD_MERGE key of a report-point row: the flanking-solution label up to
the first underscore (str.split('_', expand=True)[0]). -/
def rptBrdMerge (r : RptRow) : String := (splitStr r.flankSol '_').headD ""

/-- Lines 75-85 of the source: the in-place updates the function applies to
the caller's compound-set frame: a BRD_MERGE column is added
('BRD-' + Broad ID[9:13]) and Test [Cpd] uM is cast to float and rounded to
two decimal places.  Broad ID and MW are untouched. -/
def cmpdSetAfterCall (df : List CmpdRow) : List CmpdRow :=
  df.map (fun c =>
    { c with brdMerge := some ("BRD-" ++ brdCore c.broadID),
             testConcUM := round2 c.testConcUM })

/-- Keep the first row for each key, dropping later rows with a key already
seen (pandas drop_duplicates). -/
def dedupBy (key : α → β) [DecidableEq β] (seen : List β) : List α → List α
  | [] => []
  | a :: rest =>
    if key a ∈ seen then dedupBy key seen rest
    else a :: dedupBy key (key a :: seen) rest

/-- pandas inner merge of the trimmed report-point frame (left) with the
compound-set frame (right) on (BRD_MERGE, concentration): left rows in
order, each paired with its matching right rows in order. -/
def mergeRptCmpd (leftRows : List RptRow) (right : List CmpdRow) :
    List (RptRow × CmpdRow) :=
  leftRows.flatMap (fun l =>
    (right.filter (fun c =>
      decide (c.brdMerge = some (rptBrdMerge l) ∧
        c.testConcUM = l.concUM))).map (fun c => (l, c)))

/-- Embedding of spr_displacement_top_conc.  Returns the series of negated,
rounded top-concentration responses together with the caller's compound-set
frame as the call leaves it. -/
def spr_displacement_top_conc (instrument : String)
    (report_pt_file : Option (List RptRow)) (df_cmpd_set : List CmpdRow) :
    Except String (List ℚ × List CmpdRow) :=
  if instrument = "Biacore8k" then
    .error
      "Instrument argument must be Biacore8k for this data processing method to work"
  else
    match report_pt_file with
    | none => .error "The files could not be imported please check."
    | some df_rpt_pts_all =>
      let trim :=
        ((df_rpt_pts_all.filter
            (fun r => decide (r.stepPurpose = "Analysis"))).filter
          (fun r => decide (r.sensoType = "Corrected"))).filter
          (fun r => decide (r.name = "A-B-A binding late_1"))
      let cmpdMut := cmpdSetAfterCall df_cmpd_set
      let leftRows := trim.map (fun r => { r with concUM := round2 r.concUM })
      let merged := mergeRptCmpd leftRows cmpdMut
      let noDup := dedupBy (fun p => (p.1.flankSol, p.1.concUM)) [] merged
      let sorted := sortBy (fun p q => decide (p.1.channel ≤ q.1.channel)) noDup
      let series := sorted.map (fun p => round2 (p.1.relResp * -1))
      .ok (series, cmpdMut)

/-! ## rename_images

Embedding of rename_images.  The image directory content is the list of
png file names returned by glob; the np.random 2-digit disambiguator is a
parameter.  The filesystem state touched by the function is the process
working directory, threaded explicitly by rename_images_run.
-/

/-- One row of the steady-state/kinetics export (columns Channel,
A-B-A 1 Solution, KD (M), ka (1/Ms), kd (1/s), KD (M).1), extended with the
two image-name columns the pipeline adds; none models an absent column or a
NaN cell. -/
structure SensoRow where
  channel : Int
  solution : String
  kdM : ℚ
  ka : ℚ
  kdRate : ℚ
  kdM1 : ℚ
  ssImg : Option String := none
  sensoImg : Option String := none
  deriving Repr, DecidableEq

/-- Parse the '-'-delimited integer channel of every image file name
(split('-', expand=True)[0].astype(int)); none when a prefix is not an
integer, in which case astype raises in the source. -/
def parseImgs : List String → Option (List (String × Int))
  | [] => some []
  | nm :: rest =>
    match strToInt ((splitStr nm '-').headD "") with
    | none => none
    | some ch => (parseImgs rest).map (fun l => (nm, ch) :: l)

/-- The new file name built for one image: solution label, raw-data file
name, random disambiguator, channel number. -/
def mkNewName (sol raw : String) (rand : Int) (ch : Int) : String :=
  sol ++ "_" ++ raw ++ "_" ++ toString rand ++ "_" ++ toString ch ++ ".png"

/-- The New_Name column: the channel-sorted image files paired positionally
with the channel-sorted rows (pandas aligns the two frames on their reset
integer indexes); image rows past the end of the row frame get a NaN
name. -/
def buildNewNames (raw : String) (rand : Int) :
    List (String × Int) → List SensoRow → List (String × Option String)
  | [], _ => []
  | (nm, _) :: imgs, [] => (nm, none) :: buildNewNames raw rand imgs []
  | (nm, ch) :: imgs, row :: rows =>
    (nm, some (mkNewName row.solution raw rand ch)) ::
      buildNewNames raw rand imgs rows

/-- The os.rename loop over the image frame: renaming to a NaN target
raises TypeError; otherwise the performed renames are collected. -/
def doRenames : List (String × Option String) → Except String (List (String × String))
  | [] => .ok []
  | (_, none) :: _ => .error "TypeError: rename target is not a string"
  | (nm, some n) :: rest => (doRenames rest).map (fun rs => (nm, n) :: rs)

/-- Assignment of the new-name column onto the row frame, positionally;
rows past the end of the image frame get a NaN image name.  Only the
column named by image_type ('ss' or 'senso') is written. -/
def attachNames (image_type : String) :
    List SensoRow → List (String × String) → List SensoRow
  | [], _ => []
  | row :: rows, [] =>
    (if image_type = "ss" then { row with ssImg := none }
     else if image_type = "senso" then { row with sensoImg := none }
     else row) :: attachNames image_type rows []
  | row :: rows, (_, n) :: rs =>
    (if image_type = "ss" then { row with ssImg := some n }
     else if image_type = "senso" then { row with sensoImg := some n }
     else row) :: attachNames image_type rows rs

/-- Pure core of rename_images: everything between the chdir calls.
Returns the row frame with the image-name column filled and the performed
(old name, new name) renames. -/
def rename_images_core (df_ss_senso : List SensoRow) (img_files : List String)
    (image_type : String) (raw_data_file_name : String) (rand_int : Int) :
    Except String (List SensoRow × List (String × String)) :=
  let df := sortBy (fun a b => decide (a.channel ≤ b.channel)) df_ss_senso
  -- pd.DataFrame([]) has no columns, so naming the single column raises
  if img_files.isEmpty then
    .error "ValueError: Length mismatch: Expected axis has 0 elements, new values have 1 elements"
  else
    match parseImgs img_files with
    | none => .error "ValueError: invalid literal for int()"
    | some withCh =>
      let sortedImgs := sortBy (fun a b => decide (a.2 ≤ b.2)) withCh
      let newNames := buildNewNames raw_data_file_name rand_int sortedImgs df
      match doRenames newNames with
      | .error e => .error e
      | .ok renames => .ok (attachNames image_type df renames, renames)

/-- Filesystem state visible to rename_images: the working directory. -/
structure FS where
  cwd : String
  deriving Repr, DecidableEq

/-- rename_images with its working-directory effect: chdir to the image
folder, run the body, and chdir back only on the normal path — the source
has no try/finally around the body. -/
def rename_images_run (st : FS) (df_ss_senso : List SensoRow)
    (path_img : String) (imgDir : String → List String)
    (image_type : String) (raw_data_file_name : String) (rand_int : Int) :
    Except String (List SensoRow × List (String × String)) × FS :=
  let my_dir := st.cwd
  let st1 : FS := { cwd := path_img }
  let img_files := imgDir path_img
  match rename_images_core df_ss_senso img_files image_type
      raw_data_file_name rand_int with
  | .error e => (.error e, st1)
  | .ok res => (.ok res, { st1 with cwd := my_dir })

/-! ## spr_create_dot_upload_file

Embedding of the whole pipeline.  What the spec marks out of scope stays a
boundary: the configuration file, the clipboard, the csv and the two Excel
exports are world functions from a path to an optional parsed content
(none is a file the corresponding reader raises on); the image directories
are world functions from a path to the glob result; xlsxwriter styling,
dropdown wiring and image embedding are not modelled — the run returns the
first-sheet table handed to the writer.  The save-file-path construction
(homedir, version suffix) is also a boundary and not modelled.  The reads
the run performs are reported as an event trace, in program order. -/

/-- An input-acquisition step of the run. -/
inductive Event where
  | readConfig (path : String)
  | readClipboard
  | readCSV (path : String)
  | readExcel (path : String)
  | listImages (path : String)
  deriving Repr, DecidableEq

/-- The configuration file content, as the source reads it: the five path
keys, the meta keys used by the pipeline, and the eight per-channel protein
descriptors.  num_fc_used and immobilized_fc stay raw strings because the
source parses them itself; the per-channel float casts are modelled as
already-typed values.  fcBIP/fcRU/fcMW hold the eight fc1..fc8_protein_*
values in channel order. -/
structure Config where
  path_mstr_tbl : String
  path_ss_img : String
  path_senso_img : String
  path_ss_and_senso_txt : String
  path_report_pt : String
  num_fc_used : String
  immobilized_fc : String
  experiment_date : String
  project_code : String
  operator_name : String
  instrument : String
  protocol : String
  chip_lot : String
  nucleotide : String
  raw_data_filename : String
  directory_folder : String
  fcBIP : List String
  fcRU : List ℚ
  fcMW : List ℚ
  protein_floated_BIP : String
  protein_floated_conc_uM : ℚ
  protein_floated_MW : ℚ

/-- The external inputs a run can touch. -/
structure World where
  configOf : String → Option Config
  clipboard : Option (List CmpdRow)
  csv : String → Option (List CmpdRow)
  excelSenso : String → Option (List SensoRow)
  excelRpt : String → Option (List RptRow)
  imgDir : String → List String
  randInt : Int

/-- Parse every comma-separated group as an integer; none when int()
raises. -/
def parseIntList : List (List Char) → Option (List Int)
  | [] => some []
  | g :: gs =>
    match strToInt g.asString with
    | none => none
    | some n => (parseIntList gs).map (fun l => n :: l)

/-- Lines 252-256 of the source: strip and remove spaces, split on commas,
int() every piece. -/
def parseImmobilized (s : String) : Option (List Int) :=
  parseIntList (splitChar ',' (s.toList.filter (fun c => decide (c ≠ ' '))))

/-- A spreadsheet cell of the final frame; na models NaN and any other
undefined numeric value. -/
inductive Cell where
  | s (v : String)
  | q (v : ℚ)
  | na
  deriving Repr, DecidableEq

/-- The final frame: named columns in insertion order. -/
abbrev Df := List (String × List Cell)

/-- Row count of the frame; none when the frame has no columns yet. -/
def dfNumRows (df : Df) : Option Nat :=
  match df with
  | [] => none
  | (_, c) :: _ => some c.length

/-- Column assignment df[name] = cells: pandas aligns the assigned series
with the frame's index — excess entries are dropped, missing ones become NaN;
an existing column is overwritten in place, a new one is appended. -/
def setCol (df : Df) (name : String) (cells : List Cell) : Df :=
  let n := (dfNumRows df).getD cells.length
  let fitted := cells.take n ++ List.replicate (n - cells.length) Cell.na
  if (df.map Prod.fst).contains name then
    df.map (fun p => if p.1 = name then (p.1, fitted) else p)
  else df ++ [(name, fitted)]

/-- Scalar column assignment: the value is broadcast over the frame's
rows. -/
def setColScalar (df : Df) (name : String) (c : Cell) : Df :=
  setCol df name (List.replicate ((dfNumRows df).getD 0) c)

/-- Read a column back; an absent column reads as empty. -/
def getCol (df : Df) (name : String) : List Cell :=
  match df.find? (fun p => p.1 == name) with
  | some p => p.2
  | none => []

/-- Pointwise combination of two series, padding the shorter with NaN, as
pandas index alignment does for two RangeIndex series. -/
def colBinOp (f : Cell → Cell → Cell) : List Cell → List Cell → List Cell
  | [], ys => ys.map (fun y => f Cell.na y)
  | x :: xs, ys =>
    match ys with
    | [] => f x Cell.na :: colBinOp f xs []
    | y :: ys2 => f x y :: colBinOp f xs ys2

/-- Numeric subtraction on cells; NaN propagates. -/
def cellSub : Cell → Cell → Cell
  | .q a, .q b => .q (a - b)
  | _, _ => .na

/-- Numeric division on cells; NaN propagates, and a zero denominator
(inf or NaN in the float pipeline) is an undefined numeric value. -/
def cellDiv : Cell → Cell → Cell
  | .q a, .q b => if b = 0 then .na else .q (a / b)
  | _, _ => .na

/-- Scale a numeric cell. -/
def cellMulQ (c : Cell) (k : ℚ) : Cell :=
  match c with
  | .q a => .q (a * k)
  | _ => .na

/-- round(·, 2) on a numeric cell. -/
def cellRound2 : Cell → Cell
  | .q a => .q (round2 a)
  | _ => .na

/-- String concatenation on cells; NaN propagates (str + NaN is NaN in
pandas). -/
def cellCat : Cell → Cell → Cell
  | .s a, .s b => .s (a ++ b)
  | _, _ => .na

/-- Line 359: RU_TOP_CMPD = MAX_THEORETICAL_DISP_RU − percent_disp. -/
def ruTopCol (maxCol : List Cell) (percent_disp : List ℚ) : List Cell :=
  colBinOp cellSub maxCol (percent_disp.map Cell.q)

/-- Lines 362-363: DISP_TOP_CMPD = round(RU_TOP_CMPD /
MAX_THEORETICAL_DISP_RU * 100, 2), applied cell by cell with no special
case for a zero denominator. -/
def dispTopCol (ruCol maxCol : List Cell) : List Cell :=
  (colBinOp cellDiv ruCol maxCol).map (fun c => cellRound2 (cellMulQ c 100))

/-- The python dicts {1: fc1_*, ..., 8: fc8_*}: Series.map leaves NaN for a
channel outside 1..8. -/
def fcLookup (l : List α) (ch : Int) : Option α :=
  if 1 ≤ ch ∧ ch ≤ 8 then l[(ch - 1).toNat]? else none

/-- Python str.replace: replace every non-overlapping occurrence, left to
right.  The fuel starts at the length of the subject and bounds the
recursion. -/
def replaceAux (pat rep : List Char) : Nat → List Char → List Char
  | _, [] => []
  | 0, s => s
  | fuel+1, c :: cs =>
    if hasPre pat (c :: cs) && !pat.isEmpty then
      rep ++ replaceAux pat rep fuel (List.drop (pat.length - 1) cs)
    else c :: replaceAux pat rep fuel cs

/-- Python s.replace(pat, rep). -/
def strReplace (s pat rep : String) : String :=
  (replaceAux pat.toList rep.toList s.toList.length s.toList).asString

/-- Line 427: Steady_State_Img.str.split('_', expand=True)[5].  The expand
frame only has a column 5 when some name splits into at least six pieces;
otherwise the lookup raises KeyError.  Rows with fewer pieces (or a NaN
image name) get NaN. -/
def part5Col (senso : List SensoRow) : Except String (List Cell) :=
  if senso.all (fun r =>
      match r.ssImg with
      | none => true
      | some s => decide ((splitStr s '_').length ≤ 5)) then
    .error "KeyError: 5"
  else
    .ok (senso.map (fun r =>
      match r.ssImg with
      | none => Cell.na
      | some s =>
        match (splitStr s '_')[5]? with
        | some t => Cell.s t
        | none => Cell.na))

/-- The fixed column sequence of the final reorder (source lines
440-445). -/
def finalCols : List String :=
  ["BROAD_ID", "PROJECT_CODE", "CURVE_VALID", "STEADY_STATE_IMG",
   "1to1_IMG", "TOP_COMPOUND_UM", "MAX_THEORETICAL_DISP_RU", "RU_TOP_CMPD",
   "DISP_TOP_CMPD", "IC50_UM", "KA_1_1_BINDING", "KD_LITTLE_1_1_BINDING",
   "KD_1_1_BINDING_UM", "COMMENTS", "FC", "PROTEIN_RU", "PROTEIN_MW",
   "PROTEIN_ID", "PROTEIN_FLOATED_ID", "PROTEIN_FLOATED_CONC_UM",
   "PROTEIN_FLOATED_MW", "MW", "INSTRUMENT", "EXP_DATE", "NUCLEOTIDE",
   "CHIP_LOT", "OPERATOR", "PROTOCOL_ID", "RAW_DATA_FILE", "DIR_FOLDER",
   "UNIQUE_ID", "SS_IMG_ID", "SENSO_IMG_ID"]

/-- The final column reorder of line 440: df.loc with the fixed column
list. -/
def reorderCols (df : Df) : Df := finalCols.map (fun c => (c, getCol df c))

/-- The tail of the assembler after the displacement series is available:
kinetics-derived columns, static per-channel configuration, the unique
identifier and the image paths, then the reorder to the fixed column
sequence (source lines 359-445).  The KeyError the UNIQUE_ID split lookup
of line 427 can raise is checked up front: the column assignments before
it are pure, so when it fires the run aborts with the frame never
observed, and the observable result is the same. -/
def phaseAssemble (config : Config) (df_txt2 : List SensoRow)
    (percent_disp : List ℚ) (cmpdMut : List CmpdRow) (df7 : Df)
    (evs2 : List Event) : Except String Df × List Event :=
  match part5Col
      (sortBy (fun a b => decide (a.channel ≤ b.channel)) df_txt2) with
  | .error e => (.error e, evs2)
  | .ok parts5 =>
  let df8 := setCol df7 "RU_TOP_CMPD"
    (ruTopCol (getCol df7 "MAX_THEORETICAL_DISP_RU") percent_disp)
  let df9 := setCol df8 "DISP_TOP_CMPD"
    (dispTopCol (getCol df8 "RU_TOP_CMPD")
      (getCol df8 "MAX_THEORETICAL_DISP_RU"))
  let senso := sortBy (fun a b => decide (a.channel ≤ b.channel)) df_txt2
  let df10 := setCol df9 "IC50_UM"
    (senso.map (fun r => Cell.q (r.kdM * 1000000)))
  let df11 := setCol df10 "KA_1_1_BINDING"
    (senso.map (fun r => Cell.q r.ka))
  let df12 := setCol df11 "KD_LITTLE_1_1_BINDING"
    (senso.map (fun r => Cell.q r.kdRate))
  let df13 := setCol df12 "KD_1_1_BINDING_UM"
    (senso.map (fun r => Cell.q (r.kdM1 * 1000000)))
  let df14 := setColScalar df13 "COMMENTS" (.s "")
  let df15 := setColScalar df14 "FC" (.s "2-1")
  let df16 := setCol df15 "PROTEIN_RU"
    (senso.map (fun r =>
      match fcLookup config.fcRU r.channel with
      | some v => Cell.q v
      | none => Cell.na))
  let df17 := setCol df16 "PROTEIN_MW"
    (senso.map (fun r =>
      match fcLookup config.fcMW r.channel with
      | some v => Cell.q v
      | none => Cell.na))
  let df18 := setCol df17 "PROTEIN_ID"
    (senso.map (fun r =>
      match fcLookup config.fcBIP r.channel with
      | some v => Cell.s v
      | none => Cell.na))
  let df19 := setColScalar df18 "PROTEIN_FLOATED_ID"
    (.s config.protein_floated_BIP)
  let df20 := setColScalar df19 "PROTEIN_FLOATED_CONC_UM"
    (.q config.protein_floated_conc_uM)
  let df21 := setColScalar df20 "PROTEIN_FLOATED_MW"
    (.q config.protein_floated_MW)
  let df22 := setCol df21 "MW" (cmpdMut.map (fun c => Cell.q c.mw))
  let df23 := setColScalar df22 "INSTRUMENT" (.s config.instrument)
  let df24 := setColScalar df23 "EXP_DATE" (.s config.experiment_date)
  let df25 := setColScalar df24 "NUCLEOTIDE" (.s config.nucleotide)
  let df26 := setColScalar df25 "CHIP_LOT" (.s config.chip_lot)
  let df27 := setColScalar df26 "OPERATOR" (.s config.operator_name)
  let df28 := setColScalar df27 "PROTOCOL_ID" (.s config.protocol)
  let df29 := setColScalar df28 "RAW_DATA_FILE"
    (.s config.raw_data_filename)
  let df30 := setColScalar df29 "DIR_FOLDER" (.s config.directory_folder)
  let uid :=
    colBinOp cellCat
      ((colBinOp cellCat
          (senso.map (fun r => Cell.s (r.solution ++ "_")))
          (getCol df30 "FC")).map
        (fun c => cellCat c
          (.s ("_" ++ config.project_code ++ "_" ++
            config.experiment_date ++ "_"))))
      parts5
  let df31 := setCol df30 "UNIQUE_ID" uid
  let path_ss_img_edit := strReplace config.path_ss_img "/Volumes" "//flynn"
  let df32 := setCol df31 "SS_IMG_ID"
    (senso.map (fun r =>
      match r.ssImg with
      | some s => Cell.s (path_ss_img_edit ++ "/" ++ s)
      | none => Cell.na))
  let path_senso_img_edit :=
    strReplace config.path_senso_img "/Volumes" "//flynn"
  let df33 := setCol df32 "SENSO_IMG_ID"
    (senso.map (fun r =>
      match r.sensoImg with
      | some s => Cell.s (path_senso_img_edit ++ "/" ++ s)
      | none => Cell.na))
  (.ok (reorderCols df33), evs2)

/-- The displacement step of the assembler: the instrument guard fires
before the report point file is read a second time (source lines
349-363). -/
def phaseDisp (config : Config) (w : World) (df_cmpd_set : List CmpdRow)
    (df_txt2 : List SensoRow) (arr : List Int) (rptRows : List RptRow)
    (df6 : Df) (evs1 : List Event) : Except String Df × List Event :=
  let df7 := setCol df6 "MAX_THEORETICAL_DISP_RU"
    ((calc_max_theory_disp rptRows arr).map Cell.q)
  let evs2 :=
    if config.instrument = "Biacore8k" then evs1
    else evs1 ++ [Event.readExcel config.path_report_pt]
  match spr_displacement_top_conc config.instrument
      (w.excelRpt config.path_report_pt) df_cmpd_set with
  | .error e => (.error e, evs2)
  | .ok (percent_disp, cmpdMut) =>
    phaseAssemble config df_txt2 percent_disp cmpdMut df7 evs2

/-- The assembler (source lines 328-445): build the final frame column by
column from the compound set, the metric calculator, the renamed kinetics
frame and the static per-channel configuration, then reorder to the fixed
column sequence. -/
def buildFinal (config : Config) (w : World) (df_cmpd_set : List CmpdRow)
    (df_txt2 : List SensoRow) (arr : List Int) (evs : List Event) :
    Except String Df × List Event :=
  let df1 := setCol [] "BROAD_ID" (df_cmpd_set.map (fun c => Cell.s c.broadID))
  let df2 := setColScalar df1 "PROJECT_CODE" (.s config.project_code)
  let df3 := setColScalar df2 "CURVE_VALID" (.s "")
  let df4 := setColScalar df3 "STEADY_STATE_IMG" (.s "")
  let df5 := setColScalar df4 "1to1_IMG" (.s "")
  -- the concentrations are read before spr_displacement_top_conc rounds
  -- them in place
  let df6 := setCol df5 "TOP_COMPOUND_UM"
    (df_cmpd_set.map (fun c => Cell.q c.testConcUM))
  let evs1 := evs ++ [Event.readExcel config.path_report_pt]
  match w.excelRpt config.path_report_pt with
  | none => (.error "The files could not be imported please check.", evs1)
  | some rptRows => phaseDisp config w df_cmpd_set df_txt2 arr rptRows df6 evs1

/-- The configuration phase of spr_create_dot_upload_file: the python try
block (lines 228-310).  Any failure inside it — an unreadable config, a
failing compound-set read, an unparsable channel declaration, or the
channel-count mismatch RuntimeError of line 258 — is caught by the
enclosing except and collapses to the single configuration RuntimeError. -/
def configPhase (config_file : String) (clip : Bool) (w : World) :
    Except String (Config × List CmpdRow × List Int) × List Event :=
  let ev0 : List Event := [.readConfig config_file]
  match w.configOf config_file with
  | none => (.error "Something is wrong with the config file. Please check.", ev0)
  | some config =>
    let cmpdRead : Option (List CmpdRow) × List Event :=
      if clip then (w.clipboard, ev0 ++ [Event.readClipboard])
      else (w.csv config.path_mstr_tbl,
        ev0 ++ [Event.readCSV config.path_mstr_tbl])
    match cmpdRead.1 with
    | none =>
      (.error "Something is wrong with the config file. Please check.",
        cmpdRead.2)
    | some df_cmpd_set =>
      match parseImmobilized config.immobilized_fc,
          strToInt config.num_fc_used with
      | none, _ =>
        (.error "Something is wrong with the config file. Please check.",
          cmpdRead.2)
      | some _, none =>
        (.error "Something is wrong with the config file. Please check.",
          cmpdRead.2)
      | some immobilized_fc_arr, some n =>
        -- line 258: the declared channel count must equal the length of
        -- the immobilized list; the RuntimeError it raises is caught by
        -- the enclosing except and replaced by the configuration error
        if n ≠ immobilized_fc_arr.length then
          (.error "Something is wrong with the config file. Please check.",
            cmpdRead.2)
        else (.ok (config, df_cmpd_set, immobilized_fc_arr), cmpdRead.2)

/-- The second image rename (sensorgram images). -/
def phaseRenameSenso (config : Config) (w : World)
    (df_cmpd_set : List CmpdRow) (arr : List Int) (df_txt1 : List SensoRow)
    (ev3 : List Event) : Except String Df × List Event :=
  let ev4 := ev3 ++ [Event.listImages config.path_senso_img]
  match rename_images_core df_txt1 (w.imgDir config.path_senso_img)
      "senso" config.raw_data_filename w.randInt with
  | .error e => (.error e, ev4)
  | .ok (df_txt2, _) =>
    buildFinal config w df_cmpd_set df_txt2 arr ev4

/-- The first image rename (steady-state images). -/
def phaseRenameSS (config : Config) (w : World)
    (df_cmpd_set : List CmpdRow) (arr : List Int) (df_txt : List SensoRow)
    (ev2 : List Event) : Except String Df × List Event :=
  let ev3 := ev2 ++ [Event.listImages config.path_ss_img]
  match rename_images_core df_txt (w.imgDir config.path_ss_img)
      "ss" config.raw_data_filename w.randInt with
  | .error e => (.error e, ev3)
  | .ok (df_txt1, _) => phaseRenameSenso config w df_cmpd_set arr df_txt1 ev3

/-- The kinetics/steady-state export read (source line 317). -/
def phaseSenso (config : Config) (w : World) (df_cmpd_set : List CmpdRow)
    (arr : List Int) (ev1 : List Event) : Except String Df × List Event :=
  let ev2 := ev1 ++ [Event.readExcel config.path_ss_and_senso_txt]
  match w.excelSenso config.path_ss_and_senso_txt with
  | none => (.error "FileNotFoundError", ev2)
  | some df_txt => phaseRenameSS config w df_cmpd_set arr df_txt ev2

/-- Embedding of spr_create_dot_upload_file: the configuration phase, the
kinetics read, the two image renames, and the assembler.  Returns the
first-sheet table handed to the writer and the reads performed, in
order. -/
def spr_create_dot_upload_file (config_file : String) (clip : Bool)
    (w : World) : Except String Df × List Event :=
  match configPhase config_file clip w with
  | (.error e, ev1) => (.error e, ev1)
  | (.ok (config, df_cmpd_set, immobilized_fc_arr), ev1) =>
    phaseSenso config w df_cmpd_set immobilized_fc_arr ev1

/-! ## Concrete inputs for witnesses and counterexamples -/

/-- A compound-set row as loaded from the master table (no BRD_MERGE
column yet). -/
def c8row : CmpdRow :=
  { broadID := "BRD-K12345678-001", testConcUM := 50, mw := 400 }

/-- A kinetics row on channel 1. -/
def sensoRow1 : SensoRow :=
  { channel := 1, solution := "BRD-6994_s", kdM := 0, ka := 0,
    kdRate := 0, kdM1 := 0 }

/-- A kinetics row on channel 3 with a distinctive solution label. -/
def sensoRow3 : SensoRow :=
  { channel := 3, solution := "BRD-1", kdM := 0, ka := 0,
    kdRate := 0, kdM1 := 0 }

/-- A well-formed configuration for a one-channel run. -/
def config1 : Config :=
  { path_mstr_tbl := "mstr", path_ss_img := "/Volumes/ss",
    path_senso_img := "/Volumes/senso", path_ss_and_senso_txt := "txt",
    path_report_pt := "rpt", num_fc_used := "1", immobilized_fc := "1",
    experiment_date := "190916", project_code := "7279",
    operator_name := "op", instrument := "Biacore1", protocol := "prot",
    chip_lot := "lot", nucleotide := "nuc",
    raw_data_filename := "190916_7279_function",
    directory_folder := "dir",
    fcBIP := ["B1", "B2", "B3", "B4", "B5", "B6", "B7", "B8"],
    fcRU := [1, 2, 3, 4, 5, 6, 7, 8],
    fcMW := [10, 20, 30, 40, 50, 60, 70, 80],
    protein_floated_BIP := "BF", protein_floated_conc_uM := 1,
    protein_floated_MW := 2 }

/-- The same configuration with num_fc_used declared as 2 while one
channel is immobilized: the mismatch of line 258. -/
def config2 : Config := { config1 with num_fc_used := "2" }

/-- A world on which a run with config1 succeeds end to end: a one-row
compound set, a one-row kinetics export, one image per directory, and an
(empty) report point table. -/
def w1 : World :=
  { configOf := fun _ => some config1, clipboard := none,
    csv := fun _ => some [c8row],
    excelSenso := fun _ => some [sensoRow1],
    excelRpt := fun _ => some [],
    imgDir := fun _ => ["1-a.png"], randInt := 42 }

/-- The same world configured with the mismatched config2. -/
def w2 : World := { w1 with configOf := fun _ => some config2 }

/-- The first-sheet table of the successful concrete run on w1. -/
def c1df : Df :=
  match (spr_create_dot_upload_file "cfg" false w1).1 with
  | .ok d => d
  | .error _ => []

/-- The event trace of the concrete run on w1. -/
def c1evs : List Event := (spr_create_dot_upload_file "cfg" false w1).2

/-! ## Theorems: helpers -/

theorem hasPre_append (p r : List Char) : hasPre p (p ++ r) = true := by
  induction p with
  | nil => rfl
  | cons c cs ih => simp [hasPre, ih]

theorem hasSub_nil_pat (s : List Char) : hasSub [] s = true := by
  cases s with
  | nil => rfl
  | cons c cs => simp [hasSub, hasPre]

theorem hasSub_append_self (p r : List Char) : hasSub p (p ++ r) = true := by
  cases p with
  | nil => exact hasSub_nil_pat r
  | cons c cs =>
    show (hasPre (c :: cs) (c :: cs ++ r) || hasSub (c :: cs) (cs ++ r)) = true
    rw [hasPre_append (c :: cs) r]
    rfl

theorem hasSub_middle (l p r : List Char) : hasSub p (l ++ p ++ r) = true := by
  induction l with
  | nil => simpa using hasSub_append_self p r
  | cons c cs ih =>
    show (hasPre p (c :: (cs ++ p ++ r)) || hasSub p (cs ++ p ++ r)) = true
    rw [ih, Bool.or_true]

theorem strContains_of_concat (a pat b : String) :
    strContains (a ++ pat ++ b) pat = true := by
  show hasSub pat.toList (a ++ pat ++ b).toList = true
  have h : (a ++ pat ++ b).toList = a.toList ++ pat.toList ++ b.toList := by
    simp [String.toList, List.append_assoc]
  rw [h]
  exact hasSub_middle a.toList pat.toList b.toList

theorem calc_max_theory_disp_eq_spec (rows : List RptRow)
    (fcs : List Int) :
    calc_max_theory_disp rows fcs = maxTheoryDispSpec rows fcs := by
  unfold calc_max_theory_disp maxTheoryDispSpec
  rw [List.map_flatten, List.map_map]
  congr 1
  apply List.map_congr_left
  intro fc _
  apply List.map_congr_left
  intro v _
  ring

theorem avgPairs_ne_nil {l : List ℚ} (h : l ≠ []) : avgPairs l ≠ [] := by
  match l with
  | [] => exact absurd rfl h
  | [x] => simp [avgPairs]
  | x :: y :: rest => simp [avgPairs]

theorem avgPairs_last_odd :
    ∀ l : List ℚ, Odd l.length →
      (avgPairs l).getLast? = l.getLast?.map (fun v => v / 2)
  | [], h => by simp at h
  | [x], _ => by simp [avgPairs]
  | x :: y :: rest, h => by
    have hr : Odd rest.length := by
      have hlen : (x :: y :: rest).length = rest.length + 2 := by simp
      rw [hlen] at h
      rcases h with ⟨k, hk⟩
      exact ⟨k - 1, by omega⟩
    have hrne : rest ≠ [] := by
      intro hcon
      rw [hcon] at hr
      rcases hr with ⟨k, hk⟩
      simp at hk
    have ih := avgPairs_last_odd rest hr
    obtain ⟨a, as, rfl⟩ := List.exists_cons_of_ne_nil hrne
    have h1 : avgPairs (x :: y :: a :: as) = (x + y) / 2 :: avgPairs (a :: as) :=
      rfl
    obtain ⟨b, bs, h2⟩ :=
      List.exists_cons_of_ne_nil (avgPairs_ne_nil (List.cons_ne_nil a as))
    rw [h1, h2, List.getLast?_cons_cons, ← h2, ih, List.getLast?_cons_cons,
      List.getLast?_cons_cons]

/-! ## Theorems: claims C3 and C10 -/

/-- C3. For every channel in fc_used_arr, calc_max_theory_disp selects that
channel's Corrected, late-binding-step, zero-concentration blank rows,
averages each consecutive pair, negates each average, and concatenates the
per-channel results in the caller-specified channel order; in particular,
four blank values -10, -12, -8, -6 for one channel yield the output
sequence [11, 7]. -/
theorem C3_calc_max_theory_disp :
    (∀ (rows : List RptRow) (fcs : List Int),
        calc_max_theory_disp rows fcs = maxTheoryDispSpec rows fcs) ∧
      calc_max_theory_disp fourBlankRows [1] = [11, 7] := by
  refine ⟨calc_max_theory_disp_eq_spec, ?_⟩
  norm_num [calc_max_theory_disp, blanksFor, fourBlankRows, blankRow,
    List.filter, avgPairs]

/-- C10. If a channel's filtered blank-row list has odd length, the last
value calc_max_theory_disp contributes for that channel is the single
unpaired blank value divided by 2 and then negated. -/
theorem C10_odd_unpaired_blank (rows : List RptRow) (fc : Int)
    (h : Odd (blanksFor rows fc).length) :
    (calc_max_theory_disp rows [fc]).getLast? =
      (blanksFor rows fc).getLast?.map (fun v => -(v / 2)) := by
  unfold calc_max_theory_disp
  simp only [List.map_cons, List.map_nil, List.flatten_cons, List.flatten_nil,
    List.append_nil]
  rw [List.getLast?_map, avgPairs_last_odd _ h, Option.map_map]
  congr 1
  funext v
  show v / 2 * -1 = -(v / 2)
  ring

/-- Witness for C10: three blank values -10, -12, -8 on channel 1; the last
output value is -(-8/2) = 4. -/
theorem C10_odd_unpaired_blank_witness :
    (calc_max_theory_disp threeBlankRows [1]).getLast? =
      (blanksFor threeBlankRows 1).getLast?.map (fun v => -(v / 2)) :=
  C10_odd_unpaired_blank threeBlankRows 1 (by
    have hb : blanksFor threeBlankRows 1 = [-10, -12, -8] := by
      norm_num [blanksFor, threeBlankRows, blankRow, List.filter]
    rw [hb]
    exact ⟨1, rfl⟩)

/-! ## Theorems: claims C6, C8, C9, C7 -/

/-- C6.  The source raises its instrument guard exactly when the instrument
string IS 'Biacore8k' — the very instrument its own error message says the
method requires ('Instrument argument must be Biacore8k for this data
processing method to work'), and the instrument this 8-channel pipeline
processes — and the error fires before the report point file is touched
(the error is independent of the file, even a missing one).  Every other
instrument string passes the guard and processing proceeds to the file
read.  This inverted condition contradicts the code's own error message:
the claim describes the evident intent, the code has the comparison
backwards. -/
theorem C6_instrument_guard_inverted :
    (∀ (file : Option (List RptRow)) (df : List CmpdRow),
        spr_displacement_top_conc "Biacore8k" file df =
          .error "Instrument argument must be Biacore8k for this data processing method to work") ∧
      spr_displacement_top_conc "BiacoreS200" none [] =
        .error "The files could not be imported please check." := by
  exact ⟨fun file df => rfl, rfl⟩

/-- C8 counterexample.  A call of spr_displacement_top_conc on a one-row
compound set (with a well-formed report point file) leaves the caller's
frame with a new BRD_MERGE column: the post-call frame differs from the
frame that was passed in, so the compound-set table is not immutable. -/
theorem C8_counterexample :
    spr_displacement_top_conc "Biacore1" (some []) [c8row] =
      .ok ([], cmpdSetAfterCall [c8row]) ∧
      cmpdSetAfterCall [c8row] ≠ [c8row] := by
  refine ⟨rfl, ?_⟩
  intro h
  simp [cmpdSetAfterCall, c8row] at h

/-- C8 as amended.  spr_displacement_top_conc mutates the caller's
compound-set frame in place: it adds a BRD_MERGE column holding
'BRD-' + Broad ID[9:13] and rounds the Test [Cpd] uM column to two decimal
places; the Broad ID and MW columns are left unchanged, and on the
successful path the caller's frame is exactly cmpdSetAfterCall of the
original. -/
theorem C8_cmpd_set_mutation (instrument : String)
    (file : Option (List RptRow)) (df : List CmpdRow)
    (out : List ℚ × List CmpdRow)
    (hok : spr_displacement_top_conc instrument file df = .ok out) :
    out.2 = cmpdSetAfterCall df ∧
      out.2.map (fun c => c.broadID) = df.map (fun c => c.broadID) ∧
      out.2.map (fun c => c.mw) = df.map (fun c => c.mw) ∧
      out.2.map (fun c => c.testConcUM) =
        df.map (fun c => round2 c.testConcUM) ∧
      out.2.map (fun c => c.brdMerge) =
        df.map (fun c => some ("BRD-" ++ brdCore c.broadID)) := by
  unfold spr_displacement_top_conc at hok
  split at hok
  · exact absurd hok (by simp)
  · split at hok
    · exact absurd hok (by simp)
    · simp only [Except.ok.injEq] at hok
      subst hok
      refine ⟨rfl, ?_, ?_, ?_, ?_⟩ <;>
        simp [cmpdSetAfterCall, List.map_map, Function.comp]

/-- Witness for C8: the successful call of the counterexample input,
instantiating the mutation description. -/
theorem C8_cmpd_set_mutation_witness :
    (([], cmpdSetAfterCall [c8row]) :
        List ℚ × List CmpdRow).2 = cmpdSetAfterCall [c8row] ∧
      (([], cmpdSetAfterCall [c8row]) :
          List ℚ × List CmpdRow).2.map (fun c => c.broadID) =
        [c8row].map (fun c => c.broadID) ∧
      (([], cmpdSetAfterCall [c8row]) :
          List ℚ × List CmpdRow).2.map (fun c => c.mw) =
        [c8row].map (fun c => c.mw) ∧
      (([], cmpdSetAfterCall [c8row]) :
          List ℚ × List CmpdRow).2.map (fun c => c.testConcUM) =
        [c8row].map (fun c => round2 c.testConcUM) ∧
      (([], cmpdSetAfterCall [c8row]) :
          List ℚ × List CmpdRow).2.map (fun c => c.brdMerge) =
        [c8row].map (fun c => some ("BRD-" ++ brdCore c.broadID)) :=
  C8_cmpd_set_mutation "Biacore1" (some []) [c8row] _ rfl

/-- C9 counterexample.  With zero image files in the directory,
rename_images does not return an empty mapping: building the image-file
frame raises (assigning the single column name to the empty frame fails in
pandas), the run exits with an error, and the working directory is left
pointing at the image folder. -/
theorem C9_counterexample :
    rename_images_run ⟨"/prev"⟩ [sensoRow1] "/img" (fun _ => []) "ss"
        "raw" 42 =
      (.error "ValueError: Length mismatch: Expected axis has 0 elements, new values have 1 elements",
        ⟨"/img"⟩) := rfl

/-- C9 as amended.  Zero image files are fatal: for every row frame and
image type, rename_images raises the pandas column-length error instead of
returning normally with an empty mapping. -/
theorem C9_zero_images_fatal (df : List SensoRow) (t raw : String)
    (rand : Int) :
    rename_images_core df [] t raw rand =
      .error "ValueError: Length mismatch: Expected axis has 0 elements, new values have 1 elements" :=
  rfl

/-- C7 counterexample.  An exception inside the renaming loop (two image
files but a single kinetics row, so the second new name is NaN and
os.rename raises TypeError) leaves the working directory at the image
folder: the pre-call directory '/prev' is not restored — the source has no
try/finally around the body. -/
theorem C7_counterexample :
    rename_images_run ⟨"/prev"⟩ [sensoRow1] "/img"
        (fun _ => ["1-a.png", "2-b.png"]) "ss" "raw" 42 =
      (.error "TypeError: rename target is not a string", ⟨"/img"⟩) ∧
      ("/img" : String) ≠ "/prev" := by
  exact ⟨rfl, by decide⟩

/-- C7 as amended.  On the normal (exception-free) path the working
directory is restored: whenever rename_images returns successfully, the
final working directory equals the pre-call one. -/
theorem C7_cwd_restored_on_success (st : FS) (df : List SensoRow)
    (path : String) (imgDir : String → List String) (t raw : String)
    (rand : Int) (res : List SensoRow × List (String × String))
    (h : (rename_images_run st df path imgDir t raw rand).1 = .ok res) :
    (rename_images_run st df path imgDir t raw rand).2.cwd = st.cwd := by
  simp only [rename_images_run] at h ⊢
  cases hcore : rename_images_core df (imgDir path) t raw rand with
  | error e =>
    rw [hcore] at h
    simp at h
  | ok v =>
    rfl

/-- Witness for C7: a successful one-file, one-row rename run starting
from '/prev' ends back at '/prev'. -/
theorem C7_cwd_restored_witness :
    (rename_images_run ⟨"/prev"⟩ [sensoRow1] "/img"
        (fun _ => ["1-a.png"]) "ss" "raw" 42).2.cwd = "/prev" :=
  C7_cwd_restored_on_success ⟨"/prev"⟩ [sensoRow1] "/img"
    (fun _ => ["1-a.png"]) "ss" "raw" 42
    ([{ sensoRow1 with ssImg := some (mkNewName "BRD-6994_s" "raw" 42 1) }],
      [("1-a.png", mkNewName "BRD-6994_s" "raw" 42 1)]) rfl

/-! ## Theorems: claim C5 -/

theorem strContains_mkNewName_sol (sol raw : String) (rand ch : Int) :
    strContains (mkNewName sol raw rand ch) sol = true := by
  have h : mkNewName sol raw rand ch =
      "" ++ sol ++
        ("_" ++ raw ++ "_" ++ toString rand ++ "_" ++ toString ch ++ ".png") := by
    simp [mkNewName, String.append_assoc, String.empty_append]
  rw [h]
  exact strContains_of_concat "" sol _

theorem strContains_mkNewName_ch (sol raw : String) (rand ch : Int) :
    strContains (mkNewName sol raw rand ch) (toString ch) = true := by
  have h : mkNewName sol raw rand ch =
      (sol ++ "_" ++ raw ++ "_" ++ toString rand ++ "_") ++ toString ch ++
        ".png" := by
    simp [mkNewName, String.append_assoc]
  rw [h]
  exact strContains_of_concat _ _ _

/-- When the channel-sorted image files and the channel-sorted rows agree
channel-by-channel positionally, every rename succeeds and every row ofes
the resulting frame carries the new name built from its own solution label
and its own channel. -/
theorem aligned_rename (raw : String) (rand : Int) :
    ∀ (imgs : List (String × Int)) (rows : List SensoRow),
      imgs.map (fun p => p.2) = rows.map (fun r => r.channel) →
      ∃ renames, doRenames (buildNewNames raw rand imgs rows) = .ok renames ∧
        ∀ (i : Nat) (row : SensoRow),
          (attachNames "ss" rows renames)[i]? = some row →
          row.ssImg = some (mkNewName row.solution raw rand row.channel) := by
  intro imgs
  induction imgs with
  | nil =>
    intro rows h
    cases rows with
    | nil =>
      refine ⟨[], rfl, ?_⟩
      intro i row hr
      simp [attachNames] at hr
    | cons r rs => simp at h
  | cons p ps ih =>
    intro rows h
    cases rows with
    | nil => simp at h
    | cons row rs =>
      obtain ⟨nm, ch⟩ := p
      simp only [List.map_cons, List.cons.injEq] at h
      obtain ⟨hch, htl⟩ := h
      obtain ⟨renames, hdo, hprop⟩ := ih rs htl
      refine ⟨(nm, mkNewName row.solution raw rand ch) :: renames, ?_, ?_⟩
      · show doRenames ((nm, some (mkNewName row.solution raw rand ch)) ::
            buildNewNames raw rand ps rs) = _
        show (doRenames (buildNewNames raw rand ps rs)).map _ = _
        rw [hdo]
        rfl
      · intro i r hr
        have hatt : attachNames "ss" (row :: rs)
            ((nm, mkNewName row.solution raw rand ch) :: renames) =
              { row with ssImg := some (mkNewName row.solution raw rand ch) } ::
                attachNames "ss" rs renames := by
          simp [attachNames]
        rw [hatt] at hr
        cases i with
        | zero =>
          rw [List.getElem?_cons_zero] at hr
          have hr2 := Option.some.inj hr
          subst hr2
          show some (mkNewName row.solution raw rand ch) = _
          rw [hch]
        | succ n =>
          rw [List.getElem?_cons_succ] at hr
          exact hprop n r hr

/-- C5 counterexample.  One image file with the distinct integer channel
prefix 5, one kinetics row on channel 3 with solution label 'BRD-1':
rename_images succeeds, the row's image column references
'BRD-1_raw_42_5.png', which contains the solution label but does NOT
contain the row's channel number 3 — the name carries the file's channel
prefix, not the row's channel. -/
theorem C5_counterexample :
    rename_images_core [sensoRow3] ["5-a.png"] "ss" "raw" 42 =
      .ok ([{ sensoRow3 with ssImg := some (mkNewName "BRD-1" "raw" 42 5) }],
        [("5-a.png", mkNewName "BRD-1" "raw" 42 5)]) ∧
      strContains (mkNewName "BRD-1" "raw" 42 5) sensoRow3.solution = true ∧
      strContains (mkNewName "BRD-1" "raw" 42 5)
        (toString sensoRow3.channel) = false := by
  refine ⟨rfl, by decide, by decide⟩

/-- C5 as amended.  The positional contract holds when the channel-sorted
image files agree channel-by-channel with the channel-sorted rows: then
renaming succeeds and the Nth channel-sorted row's image column references
a filename containing that row's solution label and that row's channel
number. -/
theorem C5_rename_alignment (df : List SensoRow) (img_files : List String)
    (raw : String) (rand : Int) (withCh : List (String × Int))
    (named : List SensoRow) (renames : List (String × String))
    (i : Nat) (row : SensoRow)
    (hp : parseImgs img_files = some withCh)
    (halign :
      (sortBy (fun a b => decide (a.2 ≤ b.2)) withCh).map (fun p => p.2) =
        (sortBy (fun a b => decide (a.channel ≤ b.channel)) df).map
          (fun r => r.channel))
    (hok : rename_images_core df img_files "ss" raw rand =
      .ok (named, renames))
    (hrow : named[i]? = some row) :
    row.ssImg.map (fun img => strContains img row.solution) = some true ∧
      row.ssImg.map (fun img => strContains img (toString row.channel)) =
        some true := by
  obtain ⟨renames₀, hdo, hprop⟩ := aligned_rename raw rand _ _ halign
  cases img_files with
  | nil =>
    rw [show rename_images_core df [] "ss" raw rand =
      .error "ValueError: Length mismatch: Expected axis has 0 elements, new values have 1 elements"
      from rfl] at hok
    exact Except.noConfusion hok
  | cons nm rest =>
    have hcomp : rename_images_core df (nm :: rest) "ss" raw rand =
        .ok (attachNames "ss"
          (sortBy (fun a b => decide (a.channel ≤ b.channel)) df) renames₀,
          renames₀) := by
      unfold rename_images_core
      simp only [List.isEmpty_cons, Bool.false_eq_true, if_false, hp, hdo]
    rw [hcomp] at hok
    simp only [Except.ok.injEq, Prod.mk.injEq] at hok
    obtain ⟨hnamed, hren⟩ := hok
    subst hnamed
    have h1 := hprop i row hrow
    rw [h1]
    refine ⟨?_, ?_⟩
    · show some (strContains (mkNewName row.solution raw rand row.channel)
        row.solution) = some true
      rw [strContains_mkNewName_sol]
    · show some (strContains (mkNewName row.solution raw rand row.channel)
        (toString row.channel)) = some true
      rw [strContains_mkNewName_ch]

/-- Witness for C5 as amended: one file '1-a.png', one row on channel 1
with solution 'BRD-6994_s'; the row's image name contains both. -/
theorem C5_rename_alignment_witness :
    ({ sensoRow1 with
        ssImg := some (mkNewName "BRD-6994_s" "raw" 42 1) } :
          SensoRow).ssImg.map
        (fun img => strContains img
          ({ sensoRow1 with
              ssImg := some (mkNewName "BRD-6994_s" "raw" 42 1) } :
            SensoRow).solution) = some true ∧
      ({ sensoRow1 with
          ssImg := some (mkNewName "BRD-6994_s" "raw" 42 1) } :
            SensoRow).ssImg.map
          (fun img => strContains img
            (toString ({ sensoRow1 with
                ssImg := some (mkNewName "BRD-6994_s" "raw" 42 1) } :
              SensoRow).channel)) = some true :=
  C5_rename_alignment [sensoRow1] ["1-a.png"] "raw" 42 [("1-a.png", 1)]
    [{ sensoRow1 with ssImg := some (mkNewName "BRD-6994_s" "raw" 42 1) }]
    [("1-a.png", mkNewName "BRD-6994_s" "raw" 42 1)] 0
    { sensoRow1 with ssImg := some (mkNewName "BRD-6994_s" "raw" 42 1) }
    rfl rfl rfl rfl

/-! ## Theorems: claims C1, C2, C4 -/

theorem colBinOp_get (f : Cell → Cell → Cell) :
    ∀ (a b : List Cell) (i : Nat) (x y : Cell),
      a[i]? = some x → b[i]? = some y →
      (colBinOp f a b)[i]? = some (f x y)
  | [], _, _, _, _, hx, _ => by simp at hx
  | _ :: _, [], _, _, _, _, hy => by simp at hy
  | x' :: xs, y' :: ys, 0, x, y, hx, hy => by
    rw [List.getElem?_cons_zero] at hx hy
    obtain rfl := Option.some.inj hx
    obtain rfl := Option.some.inj hy
    show (f x' y' :: colBinOp f xs ys)[0]? = some (f x' y')
    rw [List.getElem?_cons_zero]
  | x' :: xs, y' :: ys, i+1, x, y, hx, hy => by
    rw [List.getElem?_cons_succ] at hx hy
    show (f x' y' :: colBinOp f xs ys)[i+1]? = _
    rw [List.getElem?_cons_succ]
    exact colBinOp_get f xs ys i x y hx hy

/-- C4.  In the assembler, for every output row, RU_TOP_CMPD equals
MAX_THEORETICAL_DISP_RU minus the top-concentration displacement value for
that row, and DISP_TOP_CMPD equals round(RU_TOP_CMPD /
MAX_THEORETICAL_DISP_RU * 100, 2); the division carries no guard — a zero
denominator yields the undefined numeric cell; in particular
MAX_THEORETICAL_DISP_RU = 100 and RU_TOP_CMPD = 45 give
DISP_TOP_CMPD = 45.0. -/
theorem C4_disp_formulas :
    (∀ (maxd pd : List ℚ) (i : Nat) (m p : ℚ),
        maxd[i]? = some m → pd[i]? = some p →
        (ruTopCol (maxd.map Cell.q) pd)[i]? = some (Cell.q (m - p)) ∧
          (dispTopCol (ruTopCol (maxd.map Cell.q) pd)
              (maxd.map Cell.q))[i]? =
            some (if m = 0 then Cell.na
              else Cell.q (round2 ((m - p) / m * 100)))) ∧
      dispTopCol [Cell.q 45] [Cell.q 100] = [Cell.q 45] := by
  constructor
  · intro maxd pd i m p hm hp
    have hmc : (maxd.map Cell.q)[i]? = some (Cell.q m) := by
      rw [List.getElem?_map, hm]
      rfl
    have hpc : (pd.map Cell.q)[i]? = some (Cell.q p) := by
      rw [List.getElem?_map, hp]
      rfl
    have h1 : (ruTopCol (maxd.map Cell.q) pd)[i]? =
        some (cellSub (Cell.q m) (Cell.q p)) :=
      colBinOp_get cellSub _ _ i _ _ hmc hpc
    have h1q : (ruTopCol (maxd.map Cell.q) pd)[i]? =
        some (Cell.q (m - p)) := h1
    refine ⟨h1q, ?_⟩
    have h2 : (colBinOp cellDiv (ruTopCol (maxd.map Cell.q) pd)
        (maxd.map Cell.q))[i]? =
        some (cellDiv (Cell.q (m - p)) (Cell.q m)) :=
      colBinOp_get cellDiv _ _ i _ _ h1q hmc
    unfold dispTopCol
    rw [List.getElem?_map, h2]
    by_cases hm0 : m = 0
    · simp [cellDiv, hm0, cellMulQ, cellRound2]
    · simp [cellDiv, hm0, cellMulQ, cellRound2]
  · norm_num [dispTopCol, colBinOp, cellDiv, cellMulQ, cellRound2, round2,
      roundHalfEven]

/-- Witness for C4: one row with MAX_THEORETICAL_DISP_RU = 100 and
displacement 55, so RU_TOP_CMPD = 45 and DISP_TOP_CMPD = 45. -/
theorem C4_disp_formulas_witness :
    (ruTopCol ([100].map Cell.q) [55])[0]? = some (Cell.q 45) ∧
      (dispTopCol (ruTopCol ([100].map Cell.q) [55])
          ([100].map Cell.q))[0]? = some (Cell.q 45) := by
  obtain ⟨h1, h2⟩ := C4_disp_formulas.1 [100] [55] 0 100 55 rfl rfl
  constructor
  · rw [h1]
    norm_num
  · rw [h2]
    norm_num [round2, roundHalfEven]

theorem configPhase_mismatch (config_file : String) (clip : Bool)
    (w : World) (config : Config) (arr : List Int) (n : Int)
    (hcfg : w.configOf config_file = some config)
    (harr : parseImmobilized config.immobilized_fc = some arr)
    (hn : strToInt config.num_fc_used = some n)
    (hmm : n ≠ arr.length) :
    configPhase config_file clip w =
      (.error "Something is wrong with the config file. Please check.",
        [Event.readConfig config_file] ++
          (if clip then [Event.readClipboard]
           else [Event.readCSV config.path_mstr_tbl])) := by
  unfold configPhase
  rw [hcfg]
  cases clip with
  | false =>
    cases hc : w.csv config.path_mstr_tbl with
    | none => simp [hc]
    | some dfc => simp [hc, harr, hn, hmm]
  | true =>
    cases hc : w.clipboard with
    | none => simp [hc]
    | some dfc => simp [hc, harr, hn, hmm]

/-- C2 counterexample.  With clip = false and a config declaring two
channels but immobilizing one, the run raises the configuration error, but
only after the compound-set table was read from the master-table csv: the
trace preceding the error already contains that input-file read, so the
error does not precede every input read. -/
theorem C2_counterexample :
    spr_create_dot_upload_file "cfg" false w2 =
      (.error "Something is wrong with the config file. Please check.",
        [Event.readConfig "cfg", Event.readCSV "mstr"]) ∧
      Event.readCSV "mstr" ∈ (spr_create_dot_upload_file "cfg" false w2).2 := by
  refine ⟨rfl, ?_⟩
  rw [show (spr_create_dot_upload_file "cfg" false w2).2 =
    [Event.readConfig "cfg", Event.readCSV "mstr"] from rfl]
  simp

/-- C2 as amended.  Whenever the declared channel count differs from the
length of the immobilized-channel list, spr_create_dot_upload_file raises
the configuration error, and at that point only the configuration file and
the compound-set source (clipboard or master-table csv) have been touched —
the kinetics export, the report point file and the image directories are
never read. -/
theorem C2_mismatch_aborts (config_file : String) (clip : Bool)
    (w : World) (config : Config) (arr : List Int) (n : Int)
    (hcfg : w.configOf config_file = some config)
    (harr : parseImmobilized config.immobilized_fc = some arr)
    (hn : strToInt config.num_fc_used = some n)
    (hmm : n ≠ arr.length) :
    (spr_create_dot_upload_file config_file clip w).1 =
      .error "Something is wrong with the config file. Please check." ∧
      ∀ e ∈ (spr_create_dot_upload_file config_file clip w).2,
        e = Event.readConfig config_file ∨ e = Event.readClipboard ∨
          e = Event.readCSV config.path_mstr_tbl := by
  have hc := configPhase_mismatch config_file clip w config arr n hcfg
    harr hn hmm
  unfold spr_create_dot_upload_file
  rw [hc]
  refine ⟨rfl, ?_⟩
  intro e he
  cases clip with
  | false =>
    simp at he
    rcases he with h | h <;> simp [h]
  | true =>
    simp at he
    rcases he with h | h <;> simp [h]

/-- Witness for C2 as amended: the concrete mismatched run on w2. -/
theorem C2_mismatch_aborts_witness :
    (spr_create_dot_upload_file "cfg" false w2).1 =
      .error "Something is wrong with the config file. Please check." ∧
      ∀ e ∈ (spr_create_dot_upload_file "cfg" false w2).2,
        e = Event.readConfig "cfg" ∨ e = Event.readClipboard ∨
          e = Event.readCSV config2.path_mstr_tbl :=
  C2_mismatch_aborts "cfg" false w2 config2 [1] 2 rfl rfl rfl (by decide)

/-- C1 counterexample.  A successful concrete run: the first-sheet table
has 33 columns, not 31. -/
theorem C1_counterexample :
    ((spr_create_dot_upload_file "cfg" false w1).1.map
        (fun df => (df.map Prod.fst).length)) = .ok 33 ∧ (33 : Nat) ≠ 31 :=
  ⟨rfl, by decide⟩

theorem reorderCols_fst (df : Df) :
    (reorderCols df).map Prod.fst = finalCols := rfl

theorem phaseAssemble_shape (config : Config) (df_txt2 : List SensoRow)
    (pd : List ℚ) (cm : List CmpdRow) (df7 : Df) (evs2 : List Event) :
    (∃ e, (phaseAssemble config df_txt2 pd cm df7 evs2).1 = .error e) ∨
      ∃ d, (phaseAssemble config df_txt2 pd cm df7 evs2).1 = .ok d ∧
        d.map Prod.fst = finalCols := by
  unfold phaseAssemble
  cases hp5 : part5Col
      (sortBy (fun a b => decide (a.channel ≤ b.channel)) df_txt2) with
  | error e => exact Or.inl ⟨e, rfl⟩
  | ok parts5 => exact Or.inr ⟨_, rfl, reorderCols_fst _⟩

theorem phaseDisp_shape (config : Config) (w : World)
    (df_cmpd : List CmpdRow) (df_txt2 : List SensoRow) (arr : List Int)
    (rptRows : List RptRow) (df6 : Df) (evs1 : List Event) :
    (∃ e, (phaseDisp config w df_cmpd df_txt2 arr rptRows df6 evs1).1 =
        .error e) ∨
      ∃ d, (phaseDisp config w df_cmpd df_txt2 arr rptRows df6 evs1).1 =
          .ok d ∧ d.map Prod.fst = finalCols := by
  unfold phaseDisp
  cases hdisp : spr_displacement_top_conc config.instrument
      (w.excelRpt config.path_report_pt) df_cmpd with
  | error e => exact Or.inl ⟨e, rfl⟩
  | ok pr =>
    obtain ⟨percent_disp, cmpdMut⟩ := pr
    exact phaseAssemble_shape config df_txt2 percent_disp cmpdMut _ _

theorem buildFinal_shape (config : Config) (w : World)
    (df_cmpd : List CmpdRow) (df_txt2 : List SensoRow) (arr : List Int)
    (evs : List Event) :
    (∃ e, (buildFinal config w df_cmpd df_txt2 arr evs).1 = .error e) ∨
      ∃ d, (buildFinal config w df_cmpd df_txt2 arr evs).1 = .ok d ∧
        d.map Prod.fst = finalCols := by
  unfold buildFinal
  cases hrpt : w.excelRpt config.path_report_pt with
  | none => exact Or.inl ⟨_, rfl⟩
  | some rptRows =>
    exact phaseDisp_shape config w df_cmpd df_txt2 arr rptRows _ _

theorem phaseRenameSenso_shape (config : Config) (w : World)
    (df_cmpd : List CmpdRow) (arr : List Int) (df_txt1 : List SensoRow)
    (ev3 : List Event) :
    (∃ e, (phaseRenameSenso config w df_cmpd arr df_txt1 ev3).1 =
        .error e) ∨
      ∃ d, (phaseRenameSenso config w df_cmpd arr df_txt1 ev3).1 = .ok d ∧
        d.map Prod.fst = finalCols := by
  unfold phaseRenameSenso
  cases hr : rename_images_core df_txt1 (w.imgDir config.path_senso_img)
      "senso" config.raw_data_filename w.randInt with
  | error e => exact Or.inl ⟨e, rfl⟩
  | ok p =>
    obtain ⟨df_txt2, ren⟩ := p
    exact buildFinal_shape config w df_cmpd df_txt2 arr _

theorem phaseRenameSS_shape (config : Config) (w : World)
    (df_cmpd : List CmpdRow) (arr : List Int) (df_txt : List SensoRow)
    (ev2 : List Event) :
    (∃ e, (phaseRenameSS config w df_cmpd arr df_txt ev2).1 = .error e) ∨
      ∃ d, (phaseRenameSS config w df_cmpd arr df_txt ev2).1 = .ok d ∧
        d.map Prod.fst = finalCols := by
  unfold phaseRenameSS
  cases hr : rename_images_core df_txt (w.imgDir config.path_ss_img)
      "ss" config.raw_data_filename w.randInt with
  | error e => exact Or.inl ⟨e, rfl⟩
  | ok p =>
    obtain ⟨df_txt1, ren⟩ := p
    exact phaseRenameSenso_shape config w df_cmpd arr df_txt1 _

theorem phaseSenso_shape (config : Config) (w : World)
    (df_cmpd : List CmpdRow) (arr : List Int) (ev1 : List Event) :
    (∃ e, (phaseSenso config w df_cmpd arr ev1).1 = .error e) ∨
      ∃ d, (phaseSenso config w df_cmpd arr ev1).1 = .ok d ∧
        d.map Prod.fst = finalCols := by
  unfold phaseSenso
  cases hs : w.excelSenso config.path_ss_and_senso_txt with
  | none => exact Or.inl ⟨_, rfl⟩
  | some df_txt =>
    exact phaseRenameSS_shape config w df_cmpd arr df_txt _

theorem run_shape (config_file : String) (clip : Bool) (w : World) :
    (∃ e, (spr_create_dot_upload_file config_file clip w).1 = .error e) ∨
      ∃ d, (spr_create_dot_upload_file config_file clip w).1 = .ok d ∧
        d.map Prod.fst = finalCols := by
  unfold spr_create_dot_upload_file
  rcases hcp : configPhase config_file clip w with ⟨res, ev1⟩
  cases res with
  | error e => exact Or.inl ⟨e, rfl⟩
  | ok tup =>
    obtain ⟨config, df_cmpd, arr⟩ := tup
    exact phaseSenso_shape config w df_cmpd arr ev1

/-- C1 as amended.  For every successful run of spr_create_dot_upload_file
the aggregated result table written to the first sheet has exactly the
fixed 33-column sequence finalCols, in that order, regardless of the
inputs. -/
theorem C1_fixed_columns (config_file : String) (clip : Bool) (w : World)
    (df : Df) (evs : List Event)
    (h : spr_create_dot_upload_file config_file clip w = (.ok df, evs)) :
    df.map Prod.fst = finalCols := by
  rcases run_shape config_file clip w with ⟨e, he⟩ | ⟨d, hd, hcols⟩
  · rw [h] at he
    simp at he
  · rw [h] at hd
    simp only [Except.ok.injEq] at hd
    rw [hd]
    exact hcols

/-- Witness for C1 as amended: the first-sheet table of the successful
concrete run on w1 carries exactly the 33 fixed column names. -/
theorem C1_fixed_columns_witness : c1df.map Prod.fst = finalCols :=
  C1_fixed_columns "cfg" false w1 c1df c1evs rfl

end SPR
